import Mathlib

/-!
Verification of the EcoFlow Cloud Home Assistant integration's
state-to-entity binding and command-dispatch layer.

The definitions below are a shallow embedding of the Python sources:

* `custom_components/ecoflow_cloud/select.py`
  (`DictSelectEntity`, `CircuitModeSelectEntity`),
* `custom_components/ecoflow_cloud/text.py` (`TextConfigEntity`),
* `custom_components/ecoflow_cloud/devices/public/smart_home_panel.py`
  (`SmartHomePanel` command factories and the device catalog),
* `custom_components/ecoflow_cloud/devices/smart_home_panel.py`
  (the legacy `MODES` table).

State-document snapshots and command parameter payloads are modelled as
association lists from string keys to integers; Python `None` is modelled
with `Option`.  Parts of the integration that sit outside the given
sources (the entity base classes and the MQTT client) are modelled from
the specification and marked as such in their doc comments.
-/

namespace EcoflowSHP

/-- A state-document snapshot or a command `params` payload: an association
list from path-string keys to integer values (Python dict with string keys). -/
abbrev Snapshot := List (String × Int)

/-- First-match key lookup on an association list; models Python dict
indexing / `dict.get` (dict keys are unique, so first match is the match). -/
def lookupVal : Snapshot → String → Option Int
  | [], _ => none
  | (k, v) :: rest, key => if k = key then some v else lookupVal rest key

/-- Python `params.get(key, default)` followed by `int(...)` coercion. -/
def snapshotGet (snap : Snapshot) (key : String) (dflt : Int) : Int :=
  match lookupVal snap key with
  | some v => v
  | none => dflt

/-- An MQTT command object, as produced by
`SmartHomePanel._create_mqtt_command`: top-level correlation id, module
type, operate type, version, and the `params` payload. -/
structure MqttCommand where
  id : Nat
  moduleType : Nat
  operateType : String
  version : String
  params : Snapshot
deriving DecidableEq

/-- Embedding of `SmartHomePanel._create_mqtt_command` (public
`smart_home_panel.py`).  The Python code draws `id` with
`random.randint(100000, 999999)`; the draw is modelled by the explicit
argument `rid`. -/
def createMqttCommand (rid : Nat) (cmdSet cmdId : Int) (params : Snapshot) :
    MqttCommand :=
  { id := rid
    moduleType := 1
    operateType := "TCP"
    version := "1.0"
    params := ("cmdSet", cmdSet) :: ("id", cmdId) :: params }

/-- The labels of an options mapping whose code equals `v`: embedding of the
list comprehension `[k for k, v0 in self._options_dict.items() if v0 == val]`
in `DictSelectEntity._update_value` (`select.py`). -/
def labelsFor (options : Snapshot) (v : Int) : List String :=
  (options.filter (fun p => decide (p.2 = v))).map Prod.fst

/-- Embedding of `DictSelectEntity._update_value` (`select.py`): if exactly
one label maps to `val`, the cached option becomes that label and the step
reports `true`; otherwise the cached option `cur` is untouched and the step
reports `false`. -/
def dictUpdateValue (options : Snapshot) (cur : String) (val : Int) :
    String × Bool :=
  match labelsFor options val with
  | [l] => (l, true)
  | _ => (cur, false)

/-- Modelled from the spec: the entity base class (`entities.py`, not in the
given sources) interprets a `false` result of `_update_value` as the entity
not acquiring a displayed option — the spec's "unavailable" outcome; `none`
stands for "unavailable". -/
def projOf (r : String × Bool) : Option String :=
  if r.2 then some r.1 else none

/-- The displayed-option projection of a dictionary-backed select entity:
the source `_update_value` step combined with the spec-modelled
"unavailable" interpretation of a `false` result. -/
def dictProjection (options : Snapshot) (cur : String) (val : Int) :
    Option String :=
  projOf (dictUpdateValue options cur val)

/-- The forward combined-circuit-mode formula of
`CircuitModeSelectEntity._update_value` (`select.py`): `ctrlMode = 0` yields
`0` (Auto); otherwise the combined value is `1 + ctrlSta`. -/
def combinedMode (ctrlMode ctrlSta : Int) : Int :=
  if ctrlMode = 0 then 0 else 1 + ctrlSta

/-- Embedding of `CircuitModeSelectEntity._update_value` (`select.py`).
`val` is the raw primary (`ctrlMode`) value, `none` modelling Python `None`;
`staFind` models `self._ctrl_sta_expr.find(self._device.data.params)`:
outer `none` = no match for the secondary path, `some none` = matched value
is `None`.  A `None` primary coerces to `ctrlMode = 0` and a missing or
`None` secondary coerces to `ctrlSta = 0`, exactly as in the source. -/
def circuitUpdateValue (options : Snapshot) (cur : String)
    (val : Option Int) (staFind : Option (Option Int)) : String × Bool :=
  let ctrlMode : Int := match val with | some v => v | none => 0
  let ctrlSta : Int :=
    match staFind with
    | some (some v) => v
    | some none => 0
    | none => 0
  match labelsFor options (combinedMode ctrlMode ctrlSta) with
  | [l] => (l, true)
  | _ => (cur, false)

/-- The displayed-option projection of the circuit-mode select entity, with
the spec-modelled "unavailable" interpretation of a `false` step result. -/
def circuitProjection (options : Snapshot) (cur : String)
    (val : Option Int) (staFind : Option (Option Int)) : Option String :=
  projOf (circuitUpdateValue options cur val staFind)

/-- The circuit-mode options table.  `const.CIRCUIT_MODE_OPTIONS` itself is
not among the given sources; modelled from the spec and from the code
documentation in `select.py` (`CircuitModeSelectEntity` doc: Auto = 0,
Grid = 1, Battery = 2, Off = 3). -/
def circuitOptions : Snapshot :=
  [("Auto", 0), ("Grid", 1), ("Battery", 2), ("Off", 3)]

/-- Embedding of the mode decomposition in
`SmartHomePanel._create_circuit_mode_command` (public `smart_home_panel.py`):
mode 0 (Auto) yields `ctrlMode = 0` with `sta` read from the snapshot
(default 0); modes 1/2/3 (Grid/Battery/Off) yield `ctrlMode = 1` with
`sta = 0/1/2`.  Returns the pair `(ctrlMode, sta)`. -/
def circuitModeDecompose (mode : Int) (channel : Nat) (snap : Snapshot) :
    Int × Int :=
  if mode = 0 then
    (0, snapshotGet snap
      ("heartbeat.loadCmdChCtrlInfos[" ++ toString channel ++ "].ctrlSta") 0)
  else if mode = 1 then (1, 0)
  else if mode = 2 then (1, 1)
  else (1, 2)

/-- Embedding of `SmartHomePanel._create_circuit_mode_command` (public
`smart_home_panel.py`): decompose the combined mode and frame the
`cmdSet = 11`, `id = 16` command. -/
def createCircuitModeCommand (rid : Nat) (channel : Nat) (mode : Int)
    (snap : Snapshot) : MqttCommand :=
  let p := circuitModeDecompose mode channel snap
  createMqttCommand rid 11 16
    [("ch", (channel : Int)), ("ctrlMode", p.1), ("sta", p.2)]

/-- The legacy `MODES` table of `devices/smart_home_panel.py`, as
`(label, sta, ctrlMode)` triples. -/
def MODES : List (String × Int × Int) :=
  [("Auto", 0, 0), ("Grid", 0, 1), ("Battery", 1, 1), ("Off", 2, 1)]

/-- C1: for each of the 4 combined circuit-mode labels (Auto=0, Grid=1,
Battery=2, Off=3), decomposing the label's code into `(ctrlMode, sta)` via
the command-synthesis table and recomposing via the forward formula
(`ctrlMode = 0` yields 0; `ctrlMode = 1` yields `1 + sta`) returns the
original code; in particular Battery decomposes to `(1, 1)` and
`1 + 1 = 2` recomposes to Battery.  Stated for every channel and every
snapshot (the Auto case reads `sta` from the snapshot, but recomposition
ignores it since `ctrlMode = 0`). -/
theorem circuit_mode_roundtrip (ch : Nat) (snap : Snapshot) :
    combinedMode (circuitModeDecompose 0 ch snap).1
      (circuitModeDecompose 0 ch snap).2 = 0 ∧
    combinedMode (circuitModeDecompose 1 ch snap).1
      (circuitModeDecompose 1 ch snap).2 = 1 ∧
    combinedMode (circuitModeDecompose 2 ch snap).1
      (circuitModeDecompose 2 ch snap).2 = 2 ∧
    combinedMode (circuitModeDecompose 3 ch snap).1
      (circuitModeDecompose 3 ch snap).2 = 3 ∧
    circuitModeDecompose 2 ch snap = (1, 1) ∧
    combinedMode 1 1 = 2 ∧
    lookupVal circuitOptions "Battery" = some 2 := by
  refine ⟨rfl, rfl, rfl, rfl, rfl, rfl, rfl⟩

/-- Embedding of `TextConfigEntity._update_value` (`text.py`): coerce the
raw value to a string (`None` coerces to the empty string), compare with the
cached value, and report `true` only when the cached value actually
changes. -/
def textUpdateValue (cur : String) (val : Option String) : String × Bool :=
  let strVal : String := match val with | some s => s | none => ""
  if cur ≠ strVal then (strVal, true) else (cur, false)

/-- Embedding of the `MaxBatteryLevelEntity` command lambda in
`SmartHomePanel.numbers` (public `smart_home_panel.py`): frames a
`cmdSet = 11`, `id = 29` command with `forceChargeHigh` set to the new value
and `discLower` read from the snapshot key `backupChaDiscCfg.discLower`
with default `0`. -/
def maxBatteryLevelCommand (rid : Nat) (value : Int) (params : Snapshot) :
    MqttCommand :=
  createMqttCommand rid 11 29
    [("forceChargeHigh", value),
     ("discLower", snapshotGet params "backupChaDiscCfg.discLower" 0)]

/-- Embedding of the grid-voltage command lambda, identical in
`SmartHomePanel.numbers` (the `ValueUpdateEntity`) and
`SmartHomePanel.selects` (the grid-voltage `DictSelectEntity`) in the public
`smart_home_panel.py`: frames a `cmdSet = 11`, `id = 22` command with
`gridVol` set to the new value and `gridFreq` read from the snapshot key
`gridInfo.gridFreq` with default `60`. -/
def gridVoltageCommand (rid : Nat) (value : Int) (params : Snapshot) :
    MqttCommand :=
  createMqttCommand rid 11 22
    [("gridVol", value),
     ("gridFreq", snapshotGet params "gridInfo.gridFreq" 60)]

/-- C3 counterexample: `DictSelectEntity._update_value` signals a change on
the second application of the same raw value.  With the options mapping
`{"A": 1}` and raw value `1`, the first application caches option `A` and
returns `true`; applying the identical value again returns `true` a second
time, where the claim requires `false`. -/
theorem dict_update_not_idempotent :
    (dictUpdateValue [("A", 1)]
      (dictUpdateValue [("A", 1)] "" 1).1 1).2 = true := by
  rfl

/-- C3 amended: repeated application of the same state document yields
`changed = false` the second time for `TextConfigEntity`, whose update step
equality-compares with the cached value; `DictSelectEntity`'s step instead
returns the same flag on the second application as on the first — `true`
again whenever exactly one label maps to the raw value, even though nothing
changed. -/
theorem update_second_application (cur : String) (val : Option String)
    (options : Snapshot) (cur2 : String) (v : Int) :
    (textUpdateValue (textUpdateValue cur val).1 val).2 = false ∧
    (dictUpdateValue options (dictUpdateValue options cur2 v).1 v).2 =
      (dictUpdateValue options cur2 v).2 := by
  constructor
  · rcases val with _ | s <;> simp only [textUpdateValue, ne_eq, ite_not] <;>
      split <;> simp_all
  · rcases e : labelsFor options v with _ | ⟨l, _ | ⟨l2, t⟩⟩ <;>
      simp [dictUpdateValue, e]

/-- C4: when the companion discharge-lower field was last observed as 20,
the max-battery-level synthesis with new value 95 produces a command whose
params contain both `forceChargeHigh = 95` and `discLower = 20`: the
untouched companion value is included unmodified, not defaulted. -/
theorem max_level_cross_field_merge (rid : Nat) (snap : Snapshot)
    (h : lookupVal snap "backupChaDiscCfg.discLower" = some 20) :
    lookupVal (maxBatteryLevelCommand rid 95 snap).params "forceChargeHigh" =
      some 95 ∧
    lookupVal (maxBatteryLevelCommand rid 95 snap).params "discLower" =
      some 20 := by
  constructor
  · rfl
  · simp [maxBatteryLevelCommand, createMqttCommand, lookupVal, snapshotGet, h]

/-- C4 witness: the cross-field merge theorem evaluated on the concrete
snapshot in which `backupChaDiscCfg.discLower` was observed as 20. -/
theorem max_level_cross_field_merge_witness :
    lookupVal (maxBatteryLevelCommand 123456 95
        [("backupChaDiscCfg.discLower", 20)]).params "forceChargeHigh" =
      some 95 ∧
    lookupVal (maxBatteryLevelCommand 123456 95
        [("backupChaDiscCfg.discLower", 20)]).params "discLower" =
      some 20 :=
  max_level_cross_field_merge 123456 [("backupChaDiscCfg.discLower", 20)] rfl

/-- C5: when the grid-frequency field was never observed in the snapshot,
the grid-voltage synthesis with new value 230 produces a command whose
params contain `gridVol = 230` together with the documented default
`gridFreq = 60`; the frequency field is present, not absent. -/
theorem grid_voltage_missing_companion_default (rid : Nat) (snap : Snapshot)
    (h : lookupVal snap "gridInfo.gridFreq" = none) :
    lookupVal (gridVoltageCommand rid 230 snap).params "gridVol" =
      some 230 ∧
    lookupVal (gridVoltageCommand rid 230 snap).params "gridFreq" =
      some 60 := by
  constructor
  · rfl
  · simp [gridVoltageCommand, createMqttCommand, lookupVal, snapshotGet, h]

/-- C5 witness: the missing-companion-default theorem evaluated on the
empty snapshot, where `gridInfo.gridFreq` was never observed. -/
theorem grid_voltage_missing_companion_default_witness :
    lookupVal (gridVoltageCommand 123456 230 []).params "gridVol" =
      some 230 ∧
    lookupVal (gridVoltageCommand 123456 230 []).params "gridFreq" =
      some 60 :=
  grid_voltage_missing_companion_default 123456 [] rfl

/-- A raw value with no matching label yields an empty label list. -/
theorem labelsFor_eq_nil_of_not_mem (options : Snapshot) (v : Int)
    (h : v ∉ options.map Prod.snd) : labelsFor options v = [] := by
  unfold labelsFor
  have hf : options.filter (fun p => decide (p.2 = v)) = [] := by
    rw [List.filter_eq_nil_iff]
    intro a ha
    simp only [decide_eq_true_eq]
    intro hav
    exact h (hav ▸ List.mem_map_of_mem Prod.snd ha)
  rw [hf]
  rfl

/-- C6: fail-closed enum projection.  For every options mapping, cached
option and raw value: if the raw value is not a value of the mapping, or
more than one label maps to it, the projection is "unavailable" (`none`);
and the projection produces a label exactly when that label is the unique
label mapping to the raw value — the entity never guesses. -/
theorem dict_select_fail_closed (options : Snapshot) (cur : String)
    (v : Int) :
    ((v ∉ options.map Prod.snd ∨ 2 ≤ (labelsFor options v).length) →
      dictProjection options cur v = none) ∧
    (∀ l, dictProjection options cur v = some l ↔
      labelsFor options v = [l]) := by
  rcases e : labelsFor options v with _ | ⟨l1, _ | ⟨l2, t⟩⟩
  · exact ⟨fun _ => by simp [dictProjection, dictUpdateValue, projOf, e],
      fun l => by simp [dictProjection, dictUpdateValue, projOf, e]⟩
  · constructor
    · rintro (h | h)
      · rw [labelsFor_eq_nil_of_not_mem options v h] at e
        exact absurd e (by simp)
      · simp at h
    · intro l
      simp [dictProjection, dictUpdateValue, projOf, e]
  · exact ⟨fun _ => by simp [dictProjection, dictUpdateValue, projOf, e],
      fun l => by simp [dictProjection, dictUpdateValue, projOf, e]⟩

/-- C6 witness: the fail-closed theorem evaluated on the mapping
`{"A": 1}` and the unmapped raw value 2. -/
theorem dict_select_fail_closed_witness :
    dictProjection [("A", 1)] "" 2 = none :=
  (dict_select_fail_closed [("A", 1)] "" 2).1 (Or.inl (by decide))

/-- C7 counterexample: when the primary `ctrlMode` field resolves to `None`
and the secondary `ctrlSta` path does not resolve at all,
`CircuitModeSelectEntity._update_value` does not mark the entity
unavailable: it coerces the missing values to `ctrlMode = 0`, `ctrlSta = 0`
and displays the default label "Auto". -/
theorem circuit_missing_path_defaults :
    circuitProjection circuitOptions "" none none = some "Auto" ∧
    some "Auto" ≠ (none : Option String) := by
  exact ⟨rfl, by simp⟩

/-- C7 amended: the circuit-mode update step is total (it never raises),
and when the primary path does not resolve at all the base contract leaves
the entity unavailable; but when the primary field resolves to `None` the
step substitutes the default `ctrlMode = 0` and displays "Auto", and when
the secondary path is missing (here with primary `ctrlMode = 1`) it
substitutes the default `ctrlSta = 0` and displays "Grid" — it does not
mark the entity unavailable. -/
theorem circuit_update_coerces_defaults (cur : String)
    (staFind : Option (Option Int)) (cur2 : String) :
    circuitUpdateValue circuitOptions cur none staFind = ("Auto", true) ∧
    circuitUpdateValue circuitOptions cur2 (some 1) none =
      ("Grid", true) := by
  constructor
  · rcases staFind with _ | ⟨_ | v⟩ <;> rfl
  · rfl

/-- Outcome of a user action on a select or text entity: `noop` when no
command strategy is bound, `keyError` when dict indexing fails, or `sent`
carrying the optimistic local-state dict and the synthesized command. -/
inductive SelectResult where
  | noop : SelectResult
  | keyError : SelectResult
  | sent (optimistic : Snapshot) (command : MqttCommand) : SelectResult
deriving DecidableEq

/-- Embedding of `DictSelectEntity.select_option` (`select.py`): a no-op
when no command is bound; otherwise Python dict indexing
`self._options_dict[option]` (a `KeyError` when the option is not a key),
then `send_set_message(val, self.command_dict(val))` — per the override
comment in `CircuitModeSelectEntity.select_option`, the parent sends the
looked-up value as the optimistic local-state update for the entity's
primary key. -/
def dictSelectOption (hasCommand : Bool) (mqttKey : String)
    (command : Int → Snapshot → MqttCommand) (options : Snapshot)
    (snap : Snapshot) (option : String) : SelectResult :=
  if hasCommand then
    match lookupVal options option with
    | none => SelectResult.keyError
    | some v => SelectResult.sent [(mqttKey, v)] (command v snap)
  else SelectResult.noop

/-- Embedding of `CircuitModeSelectEntity.select_option` (`select.py`),
with the command strategy bound by the device catalog
(`SmartHomePanel.selects` binds `_make_circuit_mode_command_factory`, whose
factory calls `_create_circuit_mode_command`): the combined value is looked
up, the optimistic local-state update carries
`actual_ctrl_mode = 0 if combined == 0 else 1` for the primary `ctrlMode`
key, and the command is synthesized from the combined value. -/
def circuitSelectOption (hasCommand : Bool) (mqttKey : String)
    (channel rid : Nat) (options : Snapshot) (snap : Snapshot)
    (option : String) : SelectResult :=
  if hasCommand then
    match lookupVal options option with
    | none => SelectResult.keyError
    | some combined =>
        SelectResult.sent
          [(mqttKey, if combined = 0 then 0 else 1)]
          (createCircuitModeCommand rid channel combined snap)
  else SelectResult.noop

/-- Embedding of `TextConfigEntity.set_value` (`text.py`): a no-op when no
command strategy is bound, otherwise the bound strategy synthesizes the
command from the new value and the snapshot. -/
def textSetValue (hasCommand : Bool)
    (command : String → Snapshot → MqttCommand) (snap : Snapshot)
    (value : String) : Option MqttCommand :=
  if hasCommand then some (command value snap) else none

/-- Modelled from the spec: the invoke step of the entity base contract
(`entities.py` / the client, not in the given sources) optimistically marks
the entity's cached displayed value as the newly selected value before the
command round-trip confirms it. -/
def invokeCachedValue (newValue : String) : String := newValue

/-- C2: selecting "Off" on a circuit-mode entity with a command strategy
bound caches the displayed value "Off" (spec-modelled optimistic cache),
and the optimistic local-state update written for the primary `ctrlMode`
key is the decomposed value 1 — not the combined label code 3, which is
what is passed to the command synthesis instead. -/
theorem circuit_mode_optimistic_update (k : String) (ch rid : Nat)
    (snap : Snapshot) :
    invokeCachedValue "Off" = "Off" ∧
    circuitSelectOption true k ch rid circuitOptions snap "Off" =
      SelectResult.sent [(k, 1)]
        (createCircuitModeCommand rid ch 3 snap) ∧
    (1 : Int) ≠ 3 := by
  refine ⟨rfl, rfl, by decide⟩

/-- Key lookup fails exactly when the key is absent from the mapping. -/
theorem lookupVal_eq_none_iff (l : Snapshot) (key : String) :
    lookupVal l key = none ↔ key ∉ l.map Prod.fst := by
  induction l with
  | nil => simp [lookupVal]
  | cons p rest ih =>
      rcases p with ⟨k, v⟩
      by_cases h : k = key
      · subst h
        simp [lookupVal]
      · simp [lookupVal, h, ih, Ne.symm h]

/-- C8: with no command strategy bound, `select_option` on a dict select,
`select_option` on a circuit-mode select, and `set_value` on a text entity
are all no-ops — no exception, no command, no state change; and with a
strategy bound, the dict select raises `KeyError` exactly when the chosen
option is not a key of its options mapping. -/
theorem select_readonly_noop (options snap : Snapshot) (k opt : String)
    (ch rid : Nat) (cmd : Int → Snapshot → MqttCommand)
    (tcmd : String → Snapshot → MqttCommand) :
    dictSelectOption false k cmd options snap opt = SelectResult.noop ∧
    circuitSelectOption false k ch rid options snap opt =
      SelectResult.noop ∧
    textSetValue false tcmd snap opt = none ∧
    (dictSelectOption true k cmd options snap opt =
        SelectResult.keyError ↔ opt ∉ options.map Prod.fst) := by
  refine ⟨rfl, rfl, rfl, ?_⟩
  rw [← lookupVal_eq_none_iff]
  constructor
  · intro h
    rcases e : lookupVal options opt with _ | v
    · rfl
    · simp [dictSelectOption, e] at h
  · intro h
    simp [dictSelectOption, h]

/-- C8 witness: the read-only no-op theorem evaluated on a concrete
entity configuration with no command strategy bound. -/
theorem select_readonly_noop_witness :
    dictSelectOption false "key"
      (fun v _ => createMqttCommand 100000 11 22 [("gridVol", v)])
      [("A", 1)] [] "B" = SelectResult.noop :=
  (select_readonly_noop [("A", 1)] [] "key" "B" 0 100000
    (fun v _ => createMqttCommand 100000 11 22 [("gridVol", v)])
    (fun _ _ => createMqttCommand 100000 11 32 [])).1

/-- C9: every command framed by `SmartHomePanel._create_mqtt_command` — the
single constructor through which every command strategy of the public
device implementation synthesizes its message — carries at top level the
correlation id drawn from `random.randint(100000, 999999)` (so a 6-digit
integer in that range), module type 1, operate type "TCP" and version
"1.0", and its params payload starts with the `cmdSet` and sub-command `id`
discriminators followed by the command-specific fields; the framing does
not depend on which entity synthesized the command. -/
theorem mqtt_command_framing (rid : Nat) (cmdSet cmdId : Int)
    (extra : Snapshot) (h1 : 100000 ≤ rid) (h2 : rid ≤ 999999) :
    (createMqttCommand rid cmdSet cmdId extra).id = rid ∧
    100000 ≤ (createMqttCommand rid cmdSet cmdId extra).id ∧
    (createMqttCommand rid cmdSet cmdId extra).id ≤ 999999 ∧
    (createMqttCommand rid cmdSet cmdId extra).moduleType = 1 ∧
    (createMqttCommand rid cmdSet cmdId extra).operateType = "TCP" ∧
    (createMqttCommand rid cmdSet cmdId extra).version = "1.0" ∧
    lookupVal (createMqttCommand rid cmdSet cmdId extra).params "cmdSet" =
      some cmdSet ∧
    lookupVal (createMqttCommand rid cmdSet cmdId extra).params "id" =
      some cmdId ∧
    (createMqttCommand rid cmdSet cmdId extra).params =
      ("cmdSet", cmdSet) :: ("id", cmdId) :: extra :=
  ⟨rfl, h1, h2, rfl, rfl, rfl, rfl, rfl, rfl⟩

/-- C9 witness: the framing theorem evaluated at the concrete correlation
id 123456 and the backup charge-level command discriminators. -/
theorem mqtt_command_framing_witness :
    (createMqttCommand 123456 11 29 []).operateType = "TCP" ∧
    (createMqttCommand 123456 11 29 []).version = "1.0" :=
  ⟨(mqtt_command_framing 123456 11 29 [] (by decide) (by decide)).2.2.2.2.1,
   (mqtt_command_framing 123456 11 29 []
      (by decide) (by decide)).2.2.2.2.2.1⟩

/-- The kind of a select entity in the public `SmartHomePanel.selects`
catalog, in the order the catalog builds them. -/
inductive SelectKind where
  | gridVoltage
  | gridFrequency
  | emergencyBackup
  | emergencyOverload
  | currentLimit
  | circuitMode
  | backupMode
deriving DecidableEq

/-- A select-entity descriptor: its kind, its primary field path and its
display title. -/
structure SelectDesc where
  kind : SelectKind
  key : String
  title : String
deriving DecidableEq

/-- Embedding of the entity enumeration of `SmartHomePanel.selects` (public
`smart_home_panel.py`): four fixed selects, then ten per-channel current
limit selects, ten per-channel circuit-mode selects (channel index `i`
titled with channel number `i + 1`), and two backup-channel mode selects.
The four fixed titles come from `const` (not in the given sources) and are
taken as parameters. -/
def shpSelects (gridVolT gridFreqT backupT overloadT : String) :
    List SelectDesc :=
  [⟨SelectKind.gridVoltage, "'gridInfo.gridVol'", gridVolT⟩,
   ⟨SelectKind.gridFrequency, "'gridInfo.gridFreq'", gridFreqT⟩,
   ⟨SelectKind.emergencyBackup, "'emergencyStrategy.backupMode'", backupT⟩,
   ⟨SelectKind.emergencyOverload, "'emergencyStrategy.overloadMode'",
     overloadT⟩]
  ++ (List.range 10).map (fun i =>
      ⟨SelectKind.currentLimit, "'loadChCurInfo.cur'[" ++ toString i ++ "]",
       "Circuit " ++ toString (i + 1) ++ " Current Limit"⟩)
  ++ (List.range 10).map (fun i =>
      ⟨SelectKind.circuitMode,
       "heartbeat.loadCmdChCtrlInfos[" ++ toString i ++ "].ctrlMode",
       "Circuit " ++ toString (i + 1) ++ " Mode"⟩)
  ++ (List.range 2).map (fun i =>
      ⟨SelectKind.backupMode,
       "heartbeat.backupCmdChCtrlInfos[" ++ toString i ++ "].ctrlMode",
       "Backup Channel " ++ toString (i + 1) ++ " Mode"⟩)

/-- Embedding of `SmartHomePanel.texts` (public `smart_home_panel.py`): the
ten circuit-name text entities as `(field path, title)` pairs, channel
index `i` titled with channel number `i + 1`. -/
def shpTexts : List (String × String) :=
  (List.range 10).map (fun i =>
    ("'loadChInfo.info'[" ++ toString i ++ "].chName",
     "Circuit " ++ toString (i + 1) ++ " Name"))

/-- C10: whatever the four `const` titles are, the device catalog produces
exactly ten circuit-mode select entities — one per channel index 0..9, the
one at index `i` titled "Circuit (i+1) Mode" — exactly ten per-channel
current-limit selects, and exactly ten circuit-name text entities, the one
at index `i` titled "Circuit (i+1) Name". -/
theorem channel_enumeration (t1 t2 t3 t4 : String) :
    (shpSelects t1 t2 t3 t4).filter
        (fun e => decide (e.kind = SelectKind.circuitMode)) =
      (List.range 10).map (fun i =>
        ⟨SelectKind.circuitMode,
         "heartbeat.loadCmdChCtrlInfos[" ++ toString i ++ "].ctrlMode",
         "Circuit " ++ toString (i + 1) ++ " Mode"⟩) ∧
    ((shpSelects t1 t2 t3 t4).filter
        (fun e => decide (e.kind = SelectKind.circuitMode))).length = 10 ∧
    ((shpSelects t1 t2 t3 t4).filter
        (fun e => decide (e.kind = SelectKind.currentLimit))).length = 10 ∧
    shpTexts.length = 10 ∧
    (∀ i, i < 10 → shpTexts.get? i =
      some ("'loadChInfo.info'[" ++ toString i ++ "].chName",
        "Circuit " ++ toString (i + 1) ++ " Name")) := by
  refine ⟨rfl, rfl, rfl, rfl, ?_⟩
  intro i hi
  interval_cases i <;> rfl

/-- C10 witness: the channel-enumeration theorem evaluated at concrete
titles, projecting the last load channel's circuit-name text entity
(index 9, displayed channel number 10). -/
theorem channel_enumeration_witness :
    shpTexts.get? 9 =
      some ("'loadChInfo.info'[9].chName", "Circuit 10 Name") :=
  (channel_enumeration "a" "b" "c" "d").2.2.2.2 9 (by decide)

end EcoflowSHP
